import Mathlib

/-!
# Verification of the Tourism Recommendation System core

Shallow embedding of `src/app.py` (class `TourismRecommender`): the scorer
(`calculate_score`), the recommender (`get_recommendations` and the
`/api/recommend` route clamping), the score breakdown
(`_get_score_breakdown`), and the itinerary planner (`optimize_itinerary`).

Numeric conventions: Python floats are modelled by exact rationals (`ℚ`).
`math.log10`, which the code applies only to the integers
`review_count + 1` and `max_review_count + 1`, is modelled by an abstract
function `log10 : ℕ → ℚ` carried by the recommender; theorems quantify over
it, and concrete instantiations choose rational values approximating the
real logarithm.  Python's `round(x, n)` is modelled by rounding
`x * 10^n` to the nearest integer (the model rounds halves up where CPython
rounds halves to even; no statement below depends on behaviour at exact
half-way points).  Python's stable `list.sort` is modelled by
`List.insertionSort`, which Mathlib proves sorted and stable; a stable sort
by a fixed key is unique, so this is the same function CPython computes.
-/

namespace Tourism

/-- An attraction record of the Store, as produced by `load_and_process_data`:
`id`, `place_name`, `city`, `country`, `rating`, `review_count`,
`categories_list` (lower-cased tags) and the joined `categories` string. -/
structure Attraction where
  id : ℕ
  place_name : String
  city : String
  country : String
  rating : ℚ
  review_count : ℕ
  categories_list : List String
  categories : String
deriving DecidableEq

/-- A preference payload: the optional fields read by `calculate_score` and
`get_recommendations` via `preferences.get(...)`. -/
structure Preferences where
  city : Option String := none
  country : Option String := none
  categories : Option (List String) := none
  min_rating : Option ℚ := none
deriving DecidableEq

/-- Python truthiness of `preferences.get('city')`: absent (`None`) and the
empty string are falsy. -/
def strTruthy : Option String → Bool
  | none => false
  | some s => !(s == "")

/-- Python truthiness of `preferences.get('categories')`: absent (`None`) and
the empty list are falsy (which also makes the source's extra
`len(preferences['categories']) > 0` conjunct redundant). -/
def listTruthy : Option (List String) → Bool
  | none => false
  | some l => !l.isEmpty

/-- `round(x, 2)`: round to two decimal places. -/
def round2 (q : ℚ) : ℚ := (round (q * 100) : ℤ) / 100

/-- `round(x, 1)`: round to one decimal place. -/
def round1 (q : ℚ) : ℚ := (round (q * 10) : ℤ) / 10

/-- The recommender: the Store (`self.attractions`) plus the abstract model
of `math.log10` on natural-number arguments (see the file header). -/
structure TourismRecommender where
  attractions : List Attraction
  log10 : ℕ → ℚ

/-- `self.max_review_count`: `max([a['review_count'] for a in attractions])
if attractions else 1`. -/
def TourismRecommender.max_review_count (r : TourismRecommender) : ℕ :=
  if r.attractions.isEmpty then 1
  else (r.attractions.map (·.review_count)).foldl max 0

/-- The condition guarding the +25 city bonus in `calculate_score` and in
`_get_score_breakdown`: `preferences.get('city')` is truthy and the
lower-cased city names agree. -/
def cityBonusCond (att : Attraction) (p : Preferences) : Prop :=
  strTruthy p.city ∧ att.city.toLower = (p.city.getD "").toLower

/-- The condition guarding the +15 country bonus. -/
def countryBonusCond (att : Attraction) (p : Preferences) : Prop :=
  strTruthy p.country ∧ att.country.toLower = (p.country.getD "").toLower

instance (att : Attraction) (p : Preferences) : Decidable (cityBonusCond att p) :=
  inferInstanceAs (Decidable (_ ∧ _))

instance (att : Attraction) (p : Preferences) : Decidable (countryBonusCond att p) :=
  inferInstanceAs (Decidable (_ ∧ _))

/-- `set([cat.lower() for cat in attraction['categories_list']])`. -/
def attractionCats (att : Attraction) : Finset String :=
  (att.categories_list.map String.toLower).toFinset

/-- `set([cat.lower() for cat in preferences['categories']])`. -/
def userCats (p : Preferences) : Finset String :=
  ((p.categories.getD []).map String.toLower).toFinset

/-- `(attraction['rating'] / 5.0) * 40 + normalized_reviews * 20`, the base
score term shared verbatim by `calculate_score` and `_get_score_breakdown`. -/
def TourismRecommender.base_score (r : TourismRecommender) (att : Attraction) : ℚ :=
  (att.rating / 5) * 40 +
    (r.log10 (att.review_count + 1) / r.log10 (r.max_review_count + 1)) * 20

/-- The `score += 25` guarded by the city match (an integer amount). -/
def cityBonus (att : Attraction) (p : Preferences) : ℤ :=
  if cityBonusCond att p then 25 else 0

/-- The `score += 15` guarded by the country match. -/
def countryBonus (att : Attraction) (p : Preferences) : ℤ :=
  if countryBonusCond att p then 15 else 0

/-- The category-matching accumulation: `len(matching_cats) * 10` plus the
+5 perfect-match bonus, guarded by a truthy preference category list and a
non-empty intersection. -/
def categoryBonus (att : Attraction) (p : Preferences) : ℤ :=
  if listTruthy p.categories then
    if (attractionCats att ∩ userCats p).card ≠ 0 then
      (attractionCats att ∩ userCats p).card * 10 +
        (if (attractionCats att ∩ userCats p).card = (userCats p).card then 5
         else 0)
    else 0
  else 0

/-- The rating-threshold accumulation: +10 for rating ≥ 4.5, else +5 for
rating ≥ 4.0 (applied by `calculate_score` only past the gate, and by
`_get_score_breakdown` unconditionally). -/
def qualityBonus (att : Attraction) : ℤ :=
  if att.rating ≥ 9/2 then 10 else if att.rating ≥ 4 then 5 else 0

/-- The review-count-threshold accumulation: +10 for ≥ 200000 reviews, else
+5 for ≥ 100000. -/
def popularityBonus (att : Attraction) : ℤ :=
  if att.review_count ≥ 200000 then 10
  else if att.review_count ≥ 100000 then 5
  else 0

/-- `TourismRecommender.calculate_score` (src/app.py lines 59-113): the
sequence of guarded accumulations — base score from rating and
log-normalized review count, +25/+15 location bonuses, category bonuses,
then the `min_rating` gate (early `return 0`), quality and popularity
threshold bonuses, and the final clamp to `[0, 100]`.  Each Python
`if cond: score += n` is transcribed as adding the corresponding guarded
integer amount. -/
def TourismRecommender.calculate_score (r : TourismRecommender)
    (att : Attraction) (p : Preferences) : ℚ :=
  let score := r.base_score att
  let score := score + (cityBonus att p : ℚ)
  let score := score + (countryBonus att p : ℚ)
  let score := score + (categoryBonus att p : ℚ)
  let min_rating := p.min_rating.getD 0
  if att.rating ≥ min_rating then
    let score := score + (qualityBonus att : ℚ)
    let score := score + (popularityBonus att : ℚ)
    min 100 (max 0 score)
  else 0

/-- The `score_breakdown` dictionary built by `_get_score_breakdown`. -/
structure ScoreBreakdown where
  base_score : ℚ
  location_bonus : ℚ
  category_bonus : ℚ
  quality_bonus : ℚ
  popularity_bonus : ℚ
deriving DecidableEq

/-- `TourismRecommender._get_score_breakdown` (src/app.py lines 159-195):
recomputes each additive term of the score; the `min_rating` gate is not
represented. -/
def TourismRecommender.score_breakdown_of (r : TourismRecommender)
    (att : Attraction) (p : Preferences) : ScoreBreakdown :=
  { base_score := round2 (r.base_score att)
    location_bonus := ((cityBonus att p + countryBonus att p : ℤ) : ℚ)
    category_bonus := (categoryBonus att p : ℚ)
    quality_bonus := (qualityBonus att : ℚ)
    popularity_bonus := (popularityBonus att : ℚ) }

/-- The sum of the five components of a `score_breakdown`. -/
def ScoreBreakdown.total (b : ScoreBreakdown) : ℚ :=
  b.base_score + b.location_bonus + b.category_bonus +
    b.quality_bonus + b.popularity_bonus

/-- The dictionary appended to `scored_attractions` for an attraction that
passes the filters and scores above 0. -/
structure ScoredResult where
  id : ℕ
  place_name : String
  city : String
  country : String
  rating : ℚ
  review_count : ℕ
  categories : List String
  categories_display : String
  score : ℚ
  score_breakdown : ScoreBreakdown
deriving DecidableEq

/-- The `att_copy` record built inside `get_recommendations`. -/
def TourismRecommender.mkResult (r : TourismRecommender)
    (att : Attraction) (p : Preferences) : ScoredResult :=
  { id := att.id
    place_name := att.place_name
    city := att.city
    country := att.country
    rating := att.rating
    review_count := att.review_count
    categories := att.categories_list
    categories_display := att.categories
    score := round2 (r.calculate_score att p)
    score_breakdown := r.score_breakdown_of att p }

/-- The filter-and-score loop of `get_recommendations` (src/app.py lines
124-152), in Store order: skip on a failed city filter (`preferences` city
truthy, not the string `any`, lower-cased mismatch), skip on a failed
country filter, then keep the result exactly when `calculate_score` is
strictly positive. -/
def TourismRecommender.scoredAttractions (r : TourismRecommender)
    (p : Preferences) : List ScoredResult :=
  r.attractions.filterMap (fun att =>
    if strTruthy p.city ∧ p.city.getD "" ≠ "any" ∧
        att.city.toLower ≠ (p.city.getD "").toLower then none
    else if strTruthy p.country ∧ p.country.getD "" ≠ "any" ∧
        att.country.toLower ≠ (p.country.getD "").toLower then none
    else if 0 < r.calculate_score att p then some (r.mkResult att p)
    else none)

/-- The comparison realised by `sort(key=lambda x: x['score'], reverse=True)`:
earlier elements have scores at least as large. -/
def scoreGE (a b : ScoredResult) : Prop := b.score ≤ a.score

instance : DecidableRel scoreGE := fun a b =>
  inferInstanceAs (Decidable (b.score ≤ a.score))

instance : IsTotal ScoredResult scoreGE := ⟨fun a b => le_total b.score a.score⟩

instance : IsTrans ScoredResult scoreGE := ⟨fun _ _ _ h1 h2 => le_trans h2 h1⟩

/-- `TourismRecommender.get_recommendations`: score and filter in Store
order, stable-sort by score descending, truncate to `limit` (the route
always passes a clamped `limit ≥ 1`, for which Python's `[:limit]` is
`List.take`). -/
def TourismRecommender.get_recommendations (r : TourismRecommender)
    (p : Preferences) (limit : ℤ) : List ScoredResult :=
  ((r.scoredAttractions p).insertionSort scoreGE).take limit.toNat

/-- The `/api/recommend` route (src/app.py lines 331-340): clamp the
requested limit to `[1, 20]` and call `get_recommendations`. -/
def recommendRoute (r : TourismRecommender) (p : Preferences)
    (limit : ℤ) : List ScoredResult :=
  r.get_recommendations p (min (max 1 limit) 20)

/-! ## Itinerary planner (`optimize_itinerary`, src/app.py lines 197-321) -/

/-- An element of `all_attractions_with_time`: the attraction summary plus
its estimated duration. -/
structure TimedAttraction where
  id : ℕ
  name : String
  city : String
  country : String
  rating : ℚ
  review_count : ℕ
  categories : List String
  estimated_time : ℚ
deriving DecidableEq

/-- The inner `estimate_time` function: per-attraction duration from the
first matching category bucket. -/
def estimate_time (att : Attraction) : ℚ :=
  let categories := att.categories_list.map String.toLower
  if "museums" ∈ categories ∨ "parks" ∈ categories ∨ "ruins" ∈ categories then 3
  else if "beaches" ∈ categories ∨ "nature" ∈ categories then 2
  else if "temples" ∈ categories ∨ "churches" ∈ categories then 3/2
  else if "shopping" ∈ categories ∨ "markets" ∈ categories then 2
  else 2

/-- The attraction summary with estimated time built inside
`optimize_itinerary` for each selected attraction. -/
def withTimeOf (att : Attraction) : TimedAttraction :=
  { id := att.id
    name := att.place_name
    city := att.city
    country := att.country
    rating := att.rating
    review_count := att.review_count
    categories := att.categories_list
    estimated_time := estimate_time att }

/-- One day-bucket of the produced itinerary. -/
structure DayPlan where
  day : ℤ
  attractions : List TimedAttraction
  cities : List String
  total_hours : ℚ
  total_attractions : ℕ
deriving DecidableEq

/-- The successful `optimize_itinerary` payload. -/
structure ItineraryResult where
  itinerary : List DayPlan
  total_days : ℤ
  total_attractions : ℕ
  cities_visited : List String
deriving DecidableEq

/-- `set.add` / insertion-ordered dict keys: append a city if not already
present (the model fixes insertion order where CPython's set iteration
order is unspecified; no claim depends on the order). -/
def insertNew (l : List String) (c : String) : List String :=
  if c ∈ l then l else l ++ [c]

/-- The mutable loop state of the packing pass: the finished day-buckets
and the `current_day` / `daily_attractions` / `daily_hours` /
`daily_cities` accumulators. -/
structure PackState where
  itinerary : List DayPlan
  current_day : ℤ
  daily_attractions : List TimedAttraction
  daily_hours : ℚ
  daily_cities : List String

/-- The day-bucket dictionary appended when a day is closed (and for the
final flush). -/
def closeDay (s : PackState) : DayPlan :=
  { day := s.current_day
    attractions := s.daily_attractions
    cities := s.daily_cities
    total_hours := round1 s.daily_hours
    total_attractions := s.daily_attractions.length }

/-- The `should_new_day` flag of one loop iteration (src/app.py lines
271-281): true when adding the attraction would exceed the 8-hour cap on a
non-empty day, or when — before the last allowed day, at or past the target
average, day non-empty — the attraction's city is new and the day already
has its 4-hour minimum. -/
def shouldNewDay (total_days : ℤ) (avg_hours_per_day : ℚ)
    (s : PackState) (att : TimedAttraction) : Bool :=
  if s.daily_hours + att.estimated_time > 8 ∧ s.daily_attractions ≠ [] then
    true
  else if s.current_day < total_days ∧ s.daily_hours ≥ avg_hours_per_day ∧
      s.daily_attractions ≠ [] then
    decide (att.city ∉ s.daily_cities ∧ s.daily_hours ≥ 4)
  else false

/-- One iteration of the packing loop (src/app.py lines 268-300): decide
`should_new_day`, close the current day only when additionally
`current_day < total_days`, then append the attraction to the current
day's accumulators. -/
def packStep (total_days : ℤ) (avg_hours_per_day : ℚ)
    (s : PackState) (att : TimedAttraction) : PackState :=
  let s' :=
    if shouldNewDay total_days avg_hours_per_day s att ∧
        s.current_day < total_days then
      { itinerary := s.itinerary ++ [closeDay s]
        current_day := s.current_day + 1
        daily_attractions := []
        daily_hours := 0
        daily_cities := [] }
    else s
  { s' with
    daily_attractions := s'.daily_attractions ++ [att]
    daily_hours := s'.daily_hours + att.estimated_time
    daily_cities := insertNew s'.daily_cities att.city }

/-- The comparison realised by `sort(key=lambda x: x['city'])`. -/
def cityLE (a b : TimedAttraction) : Prop := a.city ≤ b.city

instance : DecidableRel cityLE := fun a b =>
  inferInstanceAs (Decidable (a.city ≤ b.city))

instance : IsTotal TimedAttraction cityLE := ⟨fun a b => le_total a.city b.city⟩

instance : IsTrans TimedAttraction cityLE := ⟨fun _ _ _ h1 h2 => le_trans h1 h2⟩

/-- `selected_attractions`: the Store attractions whose id belongs to the
requested id list (`[a for a in self.attractions if a['id'] in
attraction_ids]`). -/
def TourismRecommender.selected_attractions (r : TourismRecommender)
    (attraction_ids : List ℕ) : List Attraction :=
  r.attractions.filter (·.id ∈ attraction_ids)

/-- `all_attractions_with_time` after `sort(key=lambda x: x['city'])`:
the timed summaries of the selection, stable-sorted by city. -/
def sortedWithTime (selected : List Attraction) : List TimedAttraction :=
  (selected.map withTimeOf).insertionSort cityLE

/-- `avg_hours_per_day = total_hours / total_days`. -/
def avgHours (selected : List Attraction) (total_days : ℤ) : ℚ :=
  ((selected.map withTimeOf).map (·.estimated_time)).sum / (total_days : ℚ)

/-- The loop state after the packing pass over the city-sorted selection,
started from day 1 with empty accumulators. -/
def finalState (selected : List Attraction) (total_days : ℤ) : PackState :=
  (sortedWithTime selected).foldl
    (packStep total_days (avgHours selected total_days))
    { itinerary := [], current_day := 1, daily_attractions := []
      daily_hours := 0, daily_cities := [] }

/-- `TourismRecommender.optimize_itinerary`: resolve the selected IDs
against the Store, reject an empty selection and then a non-positive day
count, estimate times, stable-sort by city, run the greedy packing pass,
flush the last non-empty bucket, and report totals. -/
def TourismRecommender.optimize_itinerary (r : TourismRecommender)
    (attraction_ids : List ℕ) (total_days : ℤ) :
    Except String ItineraryResult :=
  if (r.selected_attractions attraction_ids).isEmpty then
    .error "No attractions selected"
  else if total_days ≤ 0 then .error "Invalid number of days"
  else
    .ok { itinerary :=
            if (finalState (r.selected_attractions attraction_ids)
                total_days).daily_attractions ≠ [] then
              (finalState (r.selected_attractions attraction_ids)
                total_days).itinerary ++
                [closeDay (finalState (r.selected_attractions attraction_ids)
                  total_days)]
            else
              (finalState (r.selected_attractions attraction_ids)
                total_days).itinerary
          total_days := total_days
          total_attractions := (r.selected_attractions attraction_ids).length
          cities_visited :=
            (r.selected_attractions attraction_ids).foldl
              (fun acc a => insertNew acc a.city) [] }

/-- The loop invariant of the packing pass for a requested day count:
`current_day` counts one past the closed buckets and never exceeds the
day count; an empty accumulator has zero hours; while the last day has not
been reached the running hours stay within the 8-hour cap; and every closed
bucket has index strictly below the day count and at most 8 (rounded)
hours. -/
def PackInv (total_days : ℤ) (s : PackState) : Prop :=
  s.current_day = s.itinerary.length + 1 ∧
  s.current_day ≤ total_days ∧
  (s.daily_attractions = [] → s.daily_hours = 0) ∧
  (s.current_day < total_days → s.daily_hours ≤ 8) ∧
  ∀ b ∈ s.itinerary, b.day < total_days ∧ b.total_hours ≤ 8

/-- Attractions accounted for by a packing state: those already in closed
buckets plus those in the running accumulator. -/
def sumCount (s : PackState) : ℕ :=
  (s.itinerary.map (·.total_attractions)).sum + s.daily_attractions.length

/-! ## Concrete sample data used by witnesses and counterexamples -/

/-- A well-behaved sample attraction: rating 4.5, 10 reviews, one category. -/
def att9 : Attraction :=
  { id := 1, place_name := "P", city := "A", country := "X", rating := 9/2,
    review_count := 10, categories_list := ["museums"], categories := "museums" }

/-- A one-attraction recommender; its abstract `log10` is the constant 1,
the exact value of `log10(rc+1)/log10(max_rc+1)` when `rc = max_rc`. -/
def rec9 : TourismRecommender := { attractions := [att9], log10 := fun _ => 1 }

/-- A preference set whose `min_rating` (5) exceeds `att9`'s rating (4.5). -/
def prefsMin5 : Preferences := { min_rating := some 5 }

/-- 10^1434, the review count that makes the log-normalized popularity of a
one-review attraction small enough for C3's counterexample (with the true
`log10`, `log10(2)/log10(10^1434 + 1) ≈ 0.00021`). -/
def bigM : ℕ := 10 ^ 1434

/-- An attraction with a minuscule (but, per the Store invariant, legal)
positive rating and a single review. -/
def attZ : Attraction :=
  { id := 1, place_name := "Z", city := "A", country := "X",
    rating := 1/10000, review_count := 1, categories_list := [],
    categories := "" }

/-- An attraction with `bigM` reviews, making `max_review_count` huge. -/
def attBig : Attraction :=
  { id := 2, place_name := "B", city := "B", country := "Y", rating := 5,
    review_count := bigM, categories_list := [], categories := "" }

/-- The two-attraction store for C3's counterexample.  Its `log10` takes the
values the real `math.log10` takes (to within the approximations noted):
`log10 2 ≈ 3/10` and `log10 (bigM + 1) ≈ 1434`; it is only ever applied to
`2`, `bigM + 1` and (never reached) other points. -/
def recZ : TourismRecommender :=
  { attractions := [attZ, attBig],
    log10 := fun n => if n = 2 then 3/10 else if n = bigM + 1 then 1434 else 1 }

/-- Three planner sample attractions: two in city "A", one in city "B",
each a 3-hour museum visit. -/
def attA1 : Attraction :=
  { id := 1, place_name := "P1", city := "A", country := "X", rating := 4,
    review_count := 10, categories_list := ["museums"], categories := "museums" }

/-- Second museum in city "A". -/
def attA2 : Attraction :=
  { id := 2, place_name := "P2", city := "A", country := "X", rating := 4,
    review_count := 10, categories_list := ["museums"], categories := "museums" }

/-- Museum in city "B". -/
def attB3 : Attraction :=
  { id := 3, place_name := "P3", city := "B", country := "X", rating := 4,
    review_count := 10, categories_list := ["museums"], categories := "museums" }

/-- The three-attraction store used by the planner witnesses. -/
def recP : TourismRecommender :=
  { attractions := [attA1, attA2, attB3], log10 := fun _ => 1 }

/-- The first day-bucket `optimize_itinerary [1,2,3] 2` produces on `recP`:
the two "A" museums, 6 hours. -/
def dayPlan1 : DayPlan :=
  { day := 1, attractions := [withTimeOf attA1, withTimeOf attA2],
    cities := ["A"], total_hours := 6, total_attractions := 2 }

/-- The second day-bucket: the "B" museum, 3 hours. -/
def dayPlan2 : DayPlan :=
  { day := 2, attractions := [withTimeOf attB3], cities := ["B"],
    total_hours := 3, total_attractions := 1 }

/-- The full itinerary `optimize_itinerary [1,2,3] 2` produces on `recP`. -/
def resP : ItineraryResult :=
  { itinerary := [dayPlan1, dayPlan2], total_days := 2,
    total_attractions := 3, cities_visited := ["A", "B"] }

/-! ## C1: the score is always in [0, 100] -/

/-- C1. For every attraction and every preference set, the value returned by
`calculate_score` lies between 0 and 100 inclusive: the gate branch returns
0 and every other branch is clamped by `min 100 (max 0 _)`. -/
theorem calculate_score_between_0_and_100 (r : TourismRecommender)
    (att : Attraction) (p : Preferences) :
    0 ≤ r.calculate_score att p ∧ r.calculate_score att p ≤ 100 := by
  constructor <;>
    · simp only [TourismRecommender.calculate_score]
      split
      · first
        | exact le_min (by norm_num) (le_max_left 0 _)
        | exact min_le_left _ _
      · norm_num

/-! ## C2: the `min_rating` gate returns exactly 0 -/

/-- C2. If the preference set carries a `min_rating` and the attraction's
rating is strictly below it, `calculate_score` returns exactly 0: the
`else: return 0` branch fires before the quality, popularity and clamping
steps, discarding every other contribution. -/
theorem calculate_score_gate_zero (r : TourismRecommender)
    (att : Attraction) (p : Preferences) (m : ℚ)
    (hm : p.min_rating = some m) (hlt : att.rating < m) :
    r.calculate_score att p = 0 := by
  simp only [TourismRecommender.calculate_score, hm, Option.getD_some]
  rw [if_neg (not_le.mpr hlt)]

/-- Witness for C2 at a concrete input: `att9` (rating 4.5) against a
preference set with `min_rating = 5`. -/
theorem calculate_score_gate_zero_witness :
    (prefsMin5.min_rating = some 5 ∧ att9.rating < 5) ∧
      rec9.calculate_score att9 prefsMin5 = 0 :=
  ⟨⟨rfl, by norm_num [att9]⟩,
    calculate_score_gate_zero rec9 att9 prefsMin5 5 rfl (by norm_num [att9])⟩

/-! ## C4: the route never returns more than min(max(1,limit),20) results -/

/-- C4. For every preference set and every integer limit, the list returned
by the `/api/recommend` route has at most `min (max 1 limit) 20` entries:
the route clamps the limit into `[1, 20]` and `get_recommendations`
truncates to it. -/
theorem recommendRoute_length_le (r : TourismRecommender)
    (p : Preferences) (limit : ℤ) :
    ((recommendRoute r p limit).length : ℤ) ≤ min (max 1 limit) 20 := by
  have h1 : (0:ℤ) ≤ min (max 1 limit) 20 :=
    le_min (le_trans zero_le_one (le_max_left 1 limit)) (by norm_num)
  calc ((recommendRoute r p limit).length : ℤ)
      ≤ ((min (max 1 limit) 20).toNat : ℤ) := by
        exact_mod_cast (List.length_take _ _).trans_le (min_le_left _ _)
    _ = min (max 1 limit) 20 := Int.toNat_of_nonneg h1

/-! ## C5: results sorted by score descending, stable on ties -/

/-- Stability of `insertionSort`: filtering the sorted list by a predicate
whose satisfying elements are pairwise related (e.g. "score equals s" under
the score-descending relation) returns exactly the filter of the unsorted
list, i.e. equal-key elements keep their original relative order. -/
theorem filter_insertionSort_of_forall {α : Type} (r : α → α → Prop)
    [DecidableRel r] (l : List α) (q : α → Bool)
    (hq : ∀ a b, q a = true → q b = true → r a b) :
    (l.insertionSort r).filter q = l.filter q := by
  have hpw : (l.filter q).Pairwise r :=
    List.pairwise_of_forall_mem_list fun a ha b hb =>
      hq a b (List.of_mem_filter ha) (List.of_mem_filter hb)
  have hsub : (l.filter q).Sublist (l.insertionSort r) :=
    List.sublist_insertionSort hpw (List.filter_sublist l)
  have hsub2 : ((l.filter q).filter q).Sublist ((l.insertionSort r).filter q) :=
    hsub.filter q
  have hself : (l.filter q).filter q = l.filter q := by
    rw [List.filter_filter]
    exact List.filter_congr fun a _ => by cases hqa : q a <;> simp [hqa]
  rw [hself] at hsub2
  have hlen : ((l.insertionSort r).filter q).length = (l.filter q).length :=
    ((List.perm_insertionSort r l).filter q).length_eq
  exact (hsub2.eq_of_length hlen.symm).symm

/-- C5. For every preference set and limit: the recommendation list is
sorted by reported score descending (`Pairwise scoreGE`); it is a prefix of
the stable sort of the Store-ordered scored list; and for every score value
`s`, the sorted list restricted to score `s` equals the Store-ordered scored
list restricted to score `s` — equal-score results appear in Store order. -/
theorem get_recommendations_sorted_and_stable (r : TourismRecommender)
    (p : Preferences) (limit : ℤ) :
    (r.get_recommendations p limit).Pairwise scoreGE ∧
    r.get_recommendations p limit =
      ((r.scoredAttractions p).insertionSort scoreGE).take limit.toNat ∧
    ∀ s : ℚ,
      ((r.scoredAttractions p).insertionSort scoreGE).filter
          (fun x => decide (x.score = s)) =
        (r.scoredAttractions p).filter (fun x => decide (x.score = s)) := by
  refine ⟨?_, rfl, fun s => ?_⟩
  · exact List.Pairwise.sublist (List.take_sublist _ _) (List.sorted_insertionSort scoreGE _)
  · refine filter_insertionSort_of_forall scoreGE _ _ fun a b ha hb => ?_
    have ha' : a.score = s := of_decide_eq_true ha
    have hb' : b.score = s := of_decide_eq_true hb
    exact le_of_eq (hb'.trans ha'.symm)

/-! ## C3: no zero-score result — corrected -/

set_option maxRecDepth 10000 in
/-- Counterexample to C3 as stated: on the `recZ` store (tiny positive
rating, astronomically popular sibling) with empty preferences, the
recommendation list contains a result whose reported `score` field is 0.
The attraction's true `calculate_score` is `1489/298750 ≈ 0.00498 > 0`, so
it passes the `score > 0` inclusion test, but the reported field
`round(score, 2)` is 0.0. -/
theorem get_recommendations_zero_score_field :
    ∃ res ∈ recZ.get_recommendations {} 10, res.score = 0 := by
  have h : ((recZ.get_recommendations {} 10).map (·.score)) = [80, 0] := by
    with_unfolding_all decide
  have h0 : (0:ℚ) ∈ (recZ.get_recommendations {} 10).map (·.score) := by
    rw [h]; simp
  obtain ⟨res, hres, hs⟩ := List.mem_map.mp h0
  exact ⟨res, hres, hs⟩

/-- Every member of the recommendation list is the `mkResult` of some Store
attraction whose `calculate_score` passed the strict `score > 0` inclusion
test (shared unpacking lemma). -/
theorem exists_att_of_mem_get_recommendations (r : TourismRecommender)
    (p : Preferences) (limit : ℤ) (res : ScoredResult)
    (h : res ∈ r.get_recommendations p limit) :
    ∃ att ∈ r.attractions, res = r.mkResult att p ∧
      0 < r.calculate_score att p := by
  have h1 : res ∈ (r.scoredAttractions p).insertionSort scoreGE :=
    List.mem_of_mem_take h
  have h2 : res ∈ r.scoredAttractions p :=
    (List.mem_insertionSort scoreGE).mp h1
  unfold TourismRecommender.scoredAttractions at h2
  obtain ⟨att, hatt, heq⟩ := List.mem_filterMap.mp h2
  refine ⟨att, hatt, ?_⟩
  split at heq
  · exact absurd heq (by simp)
  · split at heq
    · exact absurd heq (by simp)
    · split at heq
      · next hpos =>
        obtain rfl := Option.some_injective _ heq
        exact ⟨rfl, hpos⟩
      · exact absurd heq (by simp)

/-- C3 (amended).  Every result returned by `get_recommendations` comes from
a Store attraction whose unrounded `calculate_score` is strictly positive —
no attraction with score 0 is ever included — and its reported `score`
field is the two-decimal rounding of that positive score (which can itself
display as 0 when the true score is below 0.005). -/
theorem mem_get_recommendations_positive_score (r : TourismRecommender)
    (p : Preferences) (limit : ℤ) (res : ScoredResult)
    (h : res ∈ r.get_recommendations p limit) :
    ∃ att ∈ r.attractions, res = r.mkResult att p ∧
      0 < r.calculate_score att p ∧
      res.score = round2 (r.calculate_score att p) := by
  obtain ⟨att, hatt, rfl, hpos⟩ :=
    exists_att_of_mem_get_recommendations r p limit res h
  exact ⟨att, hatt, rfl, hpos, rfl⟩

/-- Witness for the amended C3 on the one-attraction store `rec9`: the
single result traces back to `att9` with positive score. -/
theorem mem_get_recommendations_positive_score_witness :
    ∃ att ∈ rec9.attractions, rec9.mkResult att9 {} = rec9.mkResult att {} ∧
      0 < rec9.calculate_score att {} ∧
      (rec9.mkResult att9 {}).score = round2 (rec9.calculate_score att {}) :=
  mem_get_recommendations_positive_score rec9 {} 10 (rec9.mkResult att9 {})
    (by with_unfolding_all decide)

/-! ## C9: the breakdown components sum to the reported score, modulo
clamping -/

/-- Adding an integer commutes with two-decimal rounding. -/
theorem round2_add_int (q : ℚ) (z : ℤ) : round2 (q + z) = round2 q + z := by
  unfold round2
  have h : (q + z) * 100 = q * 100 + ((z * 100 : ℤ) : ℚ) := by push_cast; ring
  rw [h, round_add_int]
  push_cast
  ring

/-- Two-decimal rounding is monotone. -/
theorem round2_mono {q q' : ℚ} (h : q ≤ q') : round2 q ≤ round2 q' := by
  unfold round2
  have : round (q * 100) ≤ round (q' * 100) := by
    rw [round_eq, round_eq]
    exact Int.floor_le_floor (by linarith)
  have hc : ((round (q * 100) : ℤ) : ℚ) ≤ ((round (q' * 100) : ℤ) : ℚ) := by
    exact_mod_cast this
  linarith

/-- Two-decimal rounding fixes 100 and so commutes with clamping at 100. -/
theorem round2_min_100 (q : ℚ) : round2 (min 100 q) = min 100 (round2 q) := by
  have hm : Monotone round2 := fun _ _ h => round2_mono h
  rw [hm.map_min]
  have h100 : round2 (100 : ℚ) = 100 := by with_unfolding_all decide
  rw [h100]

/-- `calculate_score` short-circuits to 0 when the rating is below the
effective minimum (shared helper for the gate). -/
theorem calculate_score_of_gate_fail (r : TourismRecommender)
    (att : Attraction) (p : Preferences)
    (h : ¬ att.rating ≥ p.min_rating.getD 0) :
    r.calculate_score att p = 0 := by
  simp only [TourismRecommender.calculate_score]
  rw [if_neg h]

/-- Past the gate, `calculate_score` is the clamped sum of the base score
and the five integer bonuses. -/
theorem calculate_score_of_gate_pass (r : TourismRecommender)
    (att : Attraction) (p : Preferences)
    (h : att.rating ≥ p.min_rating.getD 0) :
    r.calculate_score att p =
      min 100 (max 0 (r.base_score att +
        ((cityBonus att p + countryBonus att p + categoryBonus att p +
          qualityBonus att + popularityBonus att : ℤ) : ℚ))) := by
  simp only [TourismRecommender.calculate_score]
  rw [if_pos h]
  push_cast
  ring_nf

/-- The breakdown components sum to the rounded base score plus the five
integer bonuses. -/
theorem score_breakdown_total_eq (r : TourismRecommender)
    (att : Attraction) (p : Preferences) :
    (r.score_breakdown_of att p).total =
      round2 (r.base_score att) +
        ((cityBonus att p + countryBonus att p + categoryBonus att p +
          qualityBonus att + popularityBonus att : ℤ) : ℚ) := by
  simp only [TourismRecommender.score_breakdown_of, ScoreBreakdown.total]
  push_cast
  ring

/-- C9. For every result returned by `get_recommendations`, the reported
`score` field equals the sum of the five `score_breakdown` components
clamped at 100: the two agree exactly whenever the unclamped total does not
exceed 100, and differ only by the clamp (the quality gate cannot interfere
because a returned result always passed it, and rounding commutes with the
integer bonuses). -/
theorem mem_get_recommendations_score_eq_breakdown_total
    (r : TourismRecommender) (p : Preferences) (limit : ℤ)
    (res : ScoredResult) (h : res ∈ r.get_recommendations p limit) :
    res.score = min 100 res.score_breakdown.total := by
  obtain ⟨att, _, rfl, hpos⟩ :=
    exists_att_of_mem_get_recommendations r p limit res h
  have hg : att.rating ≥ p.min_rating.getD 0 := by
    by_contra hng
    rw [calculate_score_of_gate_fail r att p hng] at hpos
    exact lt_irrefl 0 hpos
  rw [calculate_score_of_gate_pass r att p hg] at hpos
  set raw : ℚ := r.base_score att +
    ((cityBonus att p + countryBonus att p + categoryBonus att p +
      qualityBonus att + popularityBonus att : ℤ) : ℚ) with hraw
  have hraw_pos : 0 < raw := by
    by_contra hle
    push_neg at hle
    rw [max_eq_left hle] at hpos
    norm_num at hpos
  show round2 (r.calculate_score att p) =
    min 100 (r.score_breakdown_of att p).total
  rw [calculate_score_of_gate_pass r att p hg, ← hraw,
    max_eq_right (le_of_lt hraw_pos), round2_min_100,
    score_breakdown_total_eq, hraw, round2_add_int]

/-- Witness for C9 on the one-attraction store `rec9`: the single result's
reported score (66) equals the clamped breakdown total. -/
theorem mem_get_recommendations_score_eq_breakdown_total_witness :
    (rec9.mkResult att9 {}).score =
      min 100 (rec9.mkResult att9 {}).score_breakdown.total :=
  mem_get_recommendations_score_eq_breakdown_total rec9 {} 10
    (rec9.mkResult att9 {}) (by with_unfolding_all decide)

/-! ## Packing-loop lemmas shared by the planner claims -/

/-- One-decimal rounding is monotone. -/
theorem round1_mono {q q' : ℚ} (h : q ≤ q') : round1 q ≤ round1 q' := by
  unfold round1
  have : round (q * 10) ≤ round (q' * 10) := by
    rw [round_eq, round_eq]
    exact Int.floor_le_floor (by linarith)
  have hc : ((round (q * 10) : ℤ) : ℚ) ≤ ((round (q' * 10) : ℤ) : ℚ) := by
    exact_mod_cast this
  linarith

/-- Hours within the 8-hour cap stay within it after rounding. -/
theorem round1_le_eight {q : ℚ} (h : q ≤ 8) : round1 q ≤ 8 := by
  have h8 : round1 (8:ℚ) = 8 := by with_unfolding_all decide
  exact (round1_mono h).trans (le_of_eq h8)

/-- Every estimated duration is at most 3 hours. -/
theorem estimate_time_le_three (att : Attraction) : estimate_time att ≤ 3 := by
  simp only [estimate_time]
  split_ifs <;> norm_num

/-- When `should_new_day` is false, adding the attraction to a non-empty
day cannot exceed the 8-hour cap. -/
theorem le_eight_of_not_shouldNewDay (td : ℤ) (avg : ℚ) (s : PackState)
    (att : TimedAttraction)
    (h : ¬ shouldNewDay td avg s att = true)
    (hne : s.daily_attractions ≠ []) :
    s.daily_hours + att.estimated_time ≤ 8 := by
  by_contra hgt
  push_neg at hgt
  exact h (by rw [shouldNewDay, if_pos ⟨hgt, hne⟩])

/-- `packStep` preserves the packing invariant (for attractions whose
estimated duration respects the 3-hour bound). -/
theorem packStep_inv (td : ℤ) (avg : ℚ) (s : PackState)
    (att : TimedAttraction) (ht : att.estimated_time ≤ 3)
    (hs : PackInv td s) : PackInv td (packStep td avg s att) := by
  obtain ⟨h1, h2, h3, h4, h5⟩ := hs
  unfold PackInv
  simp only [packStep]
  by_cases hC : shouldNewDay td avg s att = true ∧ s.current_day < td
  · -- the current day is closed
    rw [if_pos hC]
    refine ⟨?_, ?_, ?_, ?_, ?_⟩
    · simp only [List.length_append, List.length_singleton]
      push_cast
      omega
    · simpa using hC.2
    · intro h
      exact absurd h (by simp)
    · intro _
      simp only [zero_add]
      exact ht.trans (by norm_num)
    · intro b hb
      rcases List.mem_append.mp hb with hb | hb
      · exact h5 b hb
      · rcases List.mem_singleton.mp hb with rfl
        exact ⟨hC.2, round1_le_eight (h4 hC.2)⟩
  · -- no close: the attraction joins the running day
    rw [if_neg hC]
    refine ⟨h1, h2, ?_, ?_, h5⟩
    · intro h
      exact absurd h (by simp)
    · intro hlt
      have hns : ¬ shouldNewDay td avg s att = true := fun hsd => hC ⟨hsd, hlt⟩
      by_cases hE : s.daily_attractions = []
      · rw [h3 hE, zero_add]
        exact ht.trans (by norm_num)
      · exact le_eight_of_not_shouldNewDay td avg s att hns hE

/-- The packing invariant holds after folding over any list of bounded
attractions. -/
theorem foldl_packStep_inv (td : ℤ) (avg : ℚ)
    (l : List TimedAttraction) (hl : ∀ a ∈ l, a.estimated_time ≤ 3)
    (s : PackState) (hs : PackInv td s) :
    PackInv td (l.foldl (packStep td avg) s) := by
  induction l generalizing s with
  | nil => exact hs
  | cons a l ih =>
    exact ih (fun x hx => hl x (List.mem_cons_of_mem a hx)) _
      (packStep_inv td avg s a (hl a (List.mem_cons_self a l)) hs)

/-- Each `packStep` accounts for exactly one more attraction. -/
theorem sumCount_packStep (td : ℤ) (avg : ℚ) (s : PackState)
    (att : TimedAttraction) :
    sumCount (packStep td avg s att) = sumCount s + 1 := by
  unfold sumCount packStep
  split
  · simp [closeDay]
  · simp
    omega

/-- Folding the packing step accounts for every processed attraction. -/
theorem sumCount_foldl (td : ℤ) (avg : ℚ) (l : List TimedAttraction)
    (s : PackState) :
    sumCount (l.foldl (packStep td avg) s) = sumCount s + l.length := by
  induction l generalizing s with
  | nil => simp
  | cons a l ih => simp [ih, sumCount_packStep]; omega

/-- Everything a successful `optimize_itinerary` call guarantees: the day
count was positive, the itinerary has at most `total_days` buckets, the
bucket sizes sum to the number of resolved attractions, and only the bucket
indexed `total_days` can exceed 8 hours (shared success-case lemma). -/
theorem optimize_itinerary_ok_spec (r : TourismRecommender)
    (ids : List ℕ) (days : ℤ) (res : ItineraryResult)
    (h : r.optimize_itinerary ids days = .ok res) :
    1 ≤ days ∧
    (res.itinerary.length : ℤ) ≤ days ∧
    (res.itinerary.map (·.total_attractions)).sum =
      (r.selected_attractions ids).length ∧
    ∀ b ∈ res.itinerary, b.day < days → b.total_hours ≤ 8 := by
  unfold TourismRecommender.optimize_itinerary at h
  split at h
  · exact absurd h (by simp)
  · split at h
    · exact absurd h (by simp)
    · rename_i hdays
      rw [Except.ok.injEq] at h
      subst h
      have hd1 : 1 ≤ days := by omega
      have hbound : ∀ a ∈ sortedWithTime (r.selected_attractions ids),
          a.estimated_time ≤ 3 := by
        intro a ha
        have ham : a ∈ (r.selected_attractions ids).map withTimeOf := by
          simpa [sortedWithTime] using
            (List.mem_insertionSort cityLE).mp ha
        obtain ⟨x, _, rfl⟩ := List.mem_map.mp ham
        simpa [withTimeOf] using estimate_time_le_three x
      have hinv : PackInv days (finalState (r.selected_attractions ids) days) :=
        foldl_packStep_inv days _ _ hbound _
          ⟨by simp, hd1, fun _ => rfl, fun _ => by norm_num, by simp⟩
      obtain ⟨i1, i2, i3, i4, i5⟩ := hinv
      have hsum : sumCount (finalState (r.selected_attractions ids) days) =
          (r.selected_attractions ids).length := by
        unfold finalState
        rw [sumCount_foldl]
        simp [sumCount, sortedWithTime, List.length_insertionSort]
      refine ⟨hd1, ?_, ?_, ?_⟩
      · dsimp only
        split
        · simp only [List.length_append, List.length_singleton]
          push_cast
          omega
        · omega
      · dsimp only
        unfold sumCount at hsum
        split
        · simp only [List.map_append, List.sum_append, List.map_cons,
            List.map_nil, List.sum_cons, List.sum_nil]
          have hc : (closeDay (finalState (r.selected_attractions ids)
              days)).total_attractions =
              (finalState (r.selected_attractions ids)
                days).daily_attractions.length := rfl
          omega
        · rename_i hfe
          push_neg at hfe
          rw [hfe] at hsum
          simpa using hsum
      · intro b hb hbd
        dsimp only at hb
        by_cases hfl : (finalState (r.selected_attractions ids)
            days).daily_attractions ≠ []
        · rw [if_pos hfl] at hb
          rcases List.mem_append.mp hb with hb | hb
          · exact (i5 b hb).2
          · rcases List.mem_singleton.mp hb with rfl
            exact round1_le_eight (i4 hbd)
        · rw [if_neg hfl] at hb
          exact (i5 b hb).2

/-! ## C6: failure values for invalid planner inputs — corrected -/

/-- Counterexample to C6 as stated: with an empty id selection AND
`total_days = 0`, `optimize_itinerary` reports "No attractions selected",
not the invalid-day-count failure the claim requires for every selection
with `total_days ≤ 0` — the empty-selection check runs first. -/
theorem optimize_itinerary_error_order_counterexample :
    rec9.optimize_itinerary [] 0 = .error "No attractions selected" ∧
      rec9.optimize_itinerary [] 0 ≠ .error "Invalid number of days" := by
  constructor
  · rfl
  · intro h
    rw [show rec9.optimize_itinerary [] 0 =
      Except.error "No attractions selected" from rfl] at h
    injection h with h
    exact absurd h (by decide)

/-- C6 (amended).  `optimize_itinerary` reports the no-attractions failure
whenever the id selection resolves to zero Store attractions (regardless of
the day count), and the invalid-day-count failure whenever at least one
attraction resolves and `total_days ≤ 0`. -/
theorem optimize_itinerary_invalid_inputs (r : TourismRecommender)
    (ids : List ℕ) (days : ℤ) :
    ((r.selected_attractions ids).isEmpty = true →
      r.optimize_itinerary ids days = .error "No attractions selected") ∧
    ((r.selected_attractions ids).isEmpty = false → days ≤ 0 →
      r.optimize_itinerary ids days = .error "Invalid number of days") := by
  constructor
  · intro h
    unfold TourismRecommender.optimize_itinerary
    rw [if_pos h]
  · intro h hd
    unfold TourismRecommender.optimize_itinerary
    rw [if_neg (by simp [h]), if_pos hd]

/-- Witness for the amended C6: on the one-attraction store `rec9`, an
unmatched selection yields the no-attractions failure even with a valid day
count, and a matched selection with zero days yields the day-count
failure. -/
theorem optimize_itinerary_invalid_inputs_witness :
    rec9.optimize_itinerary [7] 3 = .error "No attractions selected" ∧
      rec9.optimize_itinerary [1] 0 = .error "Invalid number of days" :=
  ⟨(optimize_itinerary_invalid_inputs rec9 [7] 3).1 (by rfl),
    (optimize_itinerary_invalid_inputs rec9 [1] 0).2 (by rfl) (by decide)⟩

/-! ## C7: never more day-buckets than requested -/

/-- C7. Every successful `optimize_itinerary` call returns an itinerary
with at most `total_days` day-buckets: a day is only ever closed while
`current_day < total_days`, and the final flush adds at most one bucket. -/
theorem optimize_itinerary_length_le_days (r : TourismRecommender)
    (ids : List ℕ) (days : ℤ) (res : ItineraryResult)
    (h : r.optimize_itinerary ids days = .ok res) :
    (res.itinerary.length : ℤ) ≤ days :=
  (optimize_itinerary_ok_spec r ids days res h).2.1

/-- Witness for C7: the three-attraction, two-day plan on `recP` has two
buckets. -/
theorem optimize_itinerary_length_le_days_witness :
    (resP.itinerary.length : ℤ) ≤ 2 :=
  optimize_itinerary_length_le_days recP [1, 2, 3] 2 resP
    (by with_unfolding_all rfl)

/-! ## C8: every resolved attraction lands in exactly one bucket -/

/-- C8. For every successful `optimize_itinerary` call, the
`total_attractions` fields of the returned day-buckets sum to the number of
Store attractions whose id belongs to the requested set — each resolved
attraction is assigned to exactly one day and unknown ids contribute
nothing. -/
theorem optimize_itinerary_attractions_partitioned (r : TourismRecommender)
    (ids : List ℕ) (days : ℤ) (res : ItineraryResult)
    (h : r.optimize_itinerary ids days = .ok res) :
    (res.itinerary.map (·.total_attractions)).sum =
      (r.attractions.filter (·.id ∈ ids)).length :=
  (optimize_itinerary_ok_spec r ids days res h).2.2.1

/-- Witness for C8: on `recP`, the bucket sizes 2 and 1 sum to the three
resolved attractions. -/
theorem optimize_itinerary_attractions_partitioned_witness :
    (resP.itinerary.map (·.total_attractions)).sum =
      (recP.attractions.filter (·.id ∈ [1, 2, 3])).length :=
  optimize_itinerary_attractions_partitioned recP [1, 2, 3] 2 resP
    (by with_unfolding_all rfl)

/-! ## C10: only the last requested day can exceed the 8-hour cap -/

/-- C10. In every successful `optimize_itinerary` call, every returned
day-bucket whose day index is strictly below `total_days` has at most 8
total hours; only the bucket indexed `total_days` can exceed the cap,
because overflow can only accumulate once day-closing is disabled on the
last requested day. -/
theorem optimize_itinerary_cap_before_last_day (r : TourismRecommender)
    (ids : List ℕ) (days : ℤ) (res : ItineraryResult)
    (h : r.optimize_itinerary ids days = .ok res) :
    ∀ b ∈ res.itinerary, b.day < days → b.total_hours ≤ 8 :=
  (optimize_itinerary_ok_spec r ids days res h).2.2.2

/-- Witness for C10: the first bucket of the two-day plan on `recP` (day 1
of 2) holds 6 hours, within the cap. -/
theorem optimize_itinerary_cap_before_last_day_witness :
    dayPlan1.total_hours ≤ 8 :=
  optimize_itinerary_cap_before_last_day recP [1, 2, 3] 2 resP
    (by with_unfolding_all rfl) dayPlan1 (by with_unfolding_all decide)
    (by decide)

end Tourism
